import Mathlib

/-!
Shallow embedding of the DriverLink dispatch & notification engine
(`services/assignment_service.py`, `osrm_client.py`, `websocket_manager.py`,
`models.py`, `config.py`).

Database rows are modelled as records, tables as lists of rows, and the
SQLAlchemy session operations as pure state transformations on a `DB`
value.  `query(...).filter(p).first()` followed by in-place mutation of the
returned row is modelled by `List.find?` plus `updateFirst` (mutate the
first row matching the same predicate); `.all()` followed by mutation of
every returned row is modelled by a guarded `List.map`.  Timestamps
(`datetime.utcnow()`) are passed in as an explicit `now : Nat` parameter.
Python floats are modelled as exact rationals (for the database pipeline)
or reals (for the trigonometric haversine fallback).
-/

set_option maxHeartbeats 1000000

namespace DriverLink

/-- `models.DriverStatus`. -/
inductive DriverStatus
  | available
  | busy
  | offline
deriving DecidableEq

/-- `models.ApprovalStatus`. -/
inductive ApprovalStatus
  | pending
  | approved
  | rejected
deriving DecidableEq

/-- `models.OrderStatus`. -/
inductive OrderStatus
  | pending
  | assigned
  | in_progress
  | delivered
  | cancelled
deriving DecidableEq

/-- `models.VehicleType`. -/
inductive VehicleType
  | motorcycle
  | car
  | van
  | truck
deriving DecidableEq

/-- The columns of `models.Driver` that the engine reads or writes. -/
structure DriverRec where
  id : Nat
  vehicle_type : VehicleType
  current_latitude : Option ℚ
  current_longitude : Option ℚ
  status : DriverStatus
  approval_status : ApprovalStatus
deriving DecidableEq

/-- The columns of `models.Order` that the engine reads or writes. -/
structure OrderRec where
  id : Nat
  driver_id : Option Nat
  pickup_latitude : ℚ
  pickup_longitude : ℚ
  weight_kg : Option ℚ
  value : Option ℚ
  status : OrderStatus
  assigned_at : Option Nat
deriving DecidableEq

/-- The columns of `models.OrderNotification` (an offer record). -/
structure OrderNotification where
  order_id : Nat
  driver_id : Nat
  response : Option String
  response_at : Option Nat
  distance_km : ℚ
deriving DecidableEq

/-- The database state seen through one SQLAlchemy session. -/
structure DB where
  orders : List OrderRec
  drivers : List DriverRec
  notifications : List OrderNotification
deriving DecidableEq

/-- Mutate the first element of a list satisfying `p` (the row returned by
`query(...).filter(p).first()` and then updated in place). -/
def updateFirst (p : α → Bool) (f : α → α) : List α → List α
  | [] => []
  | x :: xs => if p x then f x :: xs else x :: updateFirst p f xs

/-- Row filter of the `Order` query in `assign_order_to_first_accepter`:
`Order.id == order_id, Order.status == OrderStatus.PENDING`. -/
def isPendingOrder (order_id : Nat) (o : OrderRec) : Bool :=
  decide (o.id = order_id ∧ o.status = OrderStatus.pending)

/-- Row filter of the `Driver` query in `assign_order_to_first_accepter`:
`Driver.id == driver_id, Driver.status == AVAILABLE, Driver.approval_status == APPROVED`. -/
def isFreeApprovedDriver (driver_id : Nat) (d : DriverRec) : Bool :=
  decide (d.id = driver_id ∧ d.status = DriverStatus.available ∧
    d.approval_status = ApprovalStatus.approved)

/-- Row filter of the `OrderNotification` query used by both
`assign_order_to_first_accepter` and `reject_order`:
`OrderNotification.order_id == order_id, OrderNotification.driver_id == driver_id`. -/
def isOfferOf (order_id driver_id : Nat) (n : OrderNotification) : Bool :=
  decide (n.order_id = order_id ∧ n.driver_id = driver_id)

/-- `DriverAssignmentService.assign_order_to_first_accepter` (the exception-free
path).  The two `SELECT ... FOR UPDATE` row locks serialize concurrent calls, so
the whole transaction is modelled as one atomic state transformation; the bool
result is the function's Python return value (`True` = assigned). -/
def assign_order_to_first_accepter (db : DB) (order_id driver_id : Nat) (now : Nat) :
    Bool × DB :=
  match db.orders.find? (isPendingOrder order_id) with
  | none => (false, db)
  | some _ =>
    match db.drivers.find? (isFreeApprovedDriver driver_id) with
    | none => (false, db)
    | some _ =>
      let orders' := updateFirst (isPendingOrder order_id)
        (fun o => { o with driver_id := some driver_id, status := OrderStatus.assigned,
                           assigned_at := some now }) db.orders
      let drivers' := updateFirst (isFreeApprovedDriver driver_id)
        (fun d => { d with status := DriverStatus.busy }) db.drivers
      let notifs1 := updateFirst (isOfferOf order_id driver_id)
        (fun n => { n with response := some "accepted", response_at := some now })
        db.notifications
      let notifs2 := notifs1.map (fun n =>
        if n.order_id = order_id ∧ n.driver_id ≠ driver_id ∧ n.response = none then
          { n with response := some "expired", response_at := some now }
        else n)
      (true, { orders := orders', drivers := drivers', notifications := notifs2 })

/-- The whole `try/except` body of `assign_order_to_first_accepter`: a
persistence-layer exception anywhere in the transaction triggers
`db.rollback()` (restoring the pre-call state) and `return False`.
`persistFail` says whether such an exception occurs during this attempt. -/
def tryAssignResult (db : DB) (order_id driver_id : Nat) (now : Nat)
    (persistFail : Bool) : Bool × DB :=
  if persistFail then (false, db)
  else assign_order_to_first_accepter db order_id driver_id now

/-- `DriverAssignmentService.reject_order`. -/
def reject_order (db : DB) (order_id driver_id : Nat) (now : Nat) : DB :=
  match db.notifications.find? (isOfferOf order_id driver_id) with
  | none => db
  | some _ =>
    { db with
      notifications :=
        updateFirst (isOfferOf order_id driver_id)
          (fun n => { n with response := some "rejected", response_at := some now })
          db.notifications }

/-- `DriverAssignmentService.get_best_vehicle_type_for_order`. -/
def get_best_vehicle_type_for_order (weight_kg : Option ℚ) (_value : Option ℚ) :
    VehicleType :=
  let w := weight_kg.getD 1
  if w ≤ 5 then VehicleType.motorcycle
  else if w ≤ 50 then VehicleType.car
  else if w ≤ 200 then VehicleType.van
  else VehicleType.truck

/-- `config.MAX_DISTANCE_KM`. -/
def MAX_DISTANCE_KM : ℚ := 50

/-- `config.MAX_DRIVERS_TO_NOTIFY`. -/
def MAX_DRIVERS_TO_NOTIFY : Nat := 5

/-- Result of one successful routing-oracle call (`osrm_client`), already
converted to kilometers / minutes. -/
structure RouteInfo where
  distance_km : ℝ
  duration_minutes : ℝ

/-- One entry of the list returned by `calculate_drivers_distances`. -/
structure DriverDistance where
  driver_id : Nat
  distance_km : ℝ
  duration_minutes : ℝ

/-- `OSRMClient.calculate_haversine_distance`: great-circle distance in km,
with `math.radians` applied to each degree input and earth radius 6371 km. -/
noncomputable def calculate_haversine_distance (point1 point2 : ℝ × ℝ) : ℝ :=
  let lat1 := point1.1 * (Real.pi / 180)
  let lon1 := point1.2 * (Real.pi / 180)
  let lat2 := point2.1 * (Real.pi / 180)
  let lon2 := point2.2 * (Real.pi / 180)
  let dlat := lat2 - lat1
  let dlon := lon2 - lon1
  let a := Real.sin (dlat / 2) ^ 2 +
    Real.cos lat1 * Real.cos lat2 * Real.sin (dlon / 2) ^ 2
  let c := 2 * Real.arcsin (Real.sqrt a)
  c * 6371

/-- `OSRMClient.calculate_drivers_distances`.  `route` stands for
`get_distance_and_duration` (the HTTP routing oracle), which returns `none` on
any failure; on `none` the haversine fallback is used with
`duration_minutes = distance_km * 2`. -/
noncomputable def calculate_drivers_distances
    (route : ℝ × ℝ → ℝ × ℝ → Option RouteInfo)
    (pickup_location : ℝ × ℝ) (driver_locations : List (ℝ × ℝ × Nat)) :
    List DriverDistance :=
  driver_locations.map (fun loc =>
    let driver_location := (loc.1, loc.2.1)
    match route pickup_location driver_location with
    | some ri => ⟨loc.2.2, ri.distance_km, ri.duration_minutes⟩
    | none =>
      let distance_km := calculate_haversine_distance pickup_location driver_location
      ⟨loc.2.2, distance_km, distance_km * 2⟩)

/-- `RouteInfo` over the exact-rational abstraction of Python floats used for
the database pipeline. -/
structure RouteInfoQ where
  distance_km : ℚ
  duration_minutes : ℚ
deriving DecidableEq

/-- `DriverDistance` over exact rationals. -/
structure DriverDistanceQ where
  driver_id : Nat
  distance_km : ℚ
  duration_minutes : ℚ
deriving DecidableEq

/-- `OSRMClient.calculate_drivers_distances` over exact rationals, as consumed
by `find_available_drivers`; the transcendental haversine fallback is the
abstract parameter `fallback_distance`. -/
def calculate_drivers_distancesQ
    (route : ℚ × ℚ → ℚ × ℚ → Option RouteInfoQ)
    (fallback_distance : ℚ × ℚ → ℚ × ℚ → ℚ)
    (pickup_location : ℚ × ℚ) (driver_locations : List (ℚ × ℚ × Nat)) :
    List DriverDistanceQ :=
  driver_locations.map (fun loc =>
    let driver_location := (loc.1, loc.2.1)
    match route pickup_location driver_location with
    | some ri => ⟨loc.2.2, ri.distance_km, ri.duration_minutes⟩
    | none =>
      let d := fallback_distance pickup_location driver_location
      ⟨loc.2.2, d, d * 2⟩)

/-- Row filter of the `Driver` query in `find_available_drivers`:
available, approved, required vehicle type, both coordinates non-null. -/
def isCandidateDriver (vehicle_type : VehicleType) (d : DriverRec) : Bool :=
  decide (d.status = DriverStatus.available ∧
    d.approval_status = ApprovalStatus.approved ∧
    d.vehicle_type = vehicle_type ∧
    d.current_latitude ≠ none ∧ d.current_longitude ≠ none)

/-- One entry of the list returned by `find_available_drivers` (the Python
dict `{driver_id, driver, distance_km, duration_minutes}`; the embedded
`driver` object is determined by `driver_id` and is omitted). -/
structure SuitableDriver where
  driver_id : Nat
  distance_km : ℚ
  duration_minutes : ℚ
deriving DecidableEq

/-- `DriverAssignmentService.find_available_drivers`.  Python's
`list.sort(key=distance)` is a stable ascending sort; it is modelled by the
stable `List.insertionSort`, which computes the same list. -/
def find_available_drivers (all_drivers : List DriverRec) (vehicle_type : VehicleType)
    (route : ℚ × ℚ → ℚ × ℚ → Option RouteInfoQ)
    (fallback_distance : ℚ × ℚ → ℚ × ℚ → ℚ)
    (pickup_location : ℚ × ℚ) : List SuitableDriver :=
  let drivers := all_drivers.filter (isCandidateDriver vehicle_type)
  if drivers.isEmpty then []
  else
    let driver_locations := drivers.filterMap (fun d =>
      match d.current_latitude, d.current_longitude with
      | some la, some lo => some (la, lo, d.id)
      | _, _ => none)
    let distances := calculate_drivers_distancesQ route fallback_distance
      pickup_location driver_locations
    let suitable_drivers := distances.filterMap (fun di =>
      if di.distance_km ≤ MAX_DISTANCE_KM then
        match drivers.find? (fun d => decide (d.id = di.driver_id)) with
        | some d => some (⟨d.id, di.distance_km, di.duration_minutes⟩ : SuitableDriver)
        | none => none
      else none)
    (List.insertionSort (fun a b => a.distance_km ≤ b.distance_km)
      suitable_drivers).take MAX_DRIVERS_TO_NOTIFY

/-- `DriverAssignmentService.create_order_notifications`: append one offer
record per candidate, stamped with its computed distance. -/
def create_order_notifications (db : DB) (order_id : Nat)
    (driver_distances : List SuitableDriver) : DB :=
  { db with
    notifications :=
      db.notifications ++ driver_distances.map (fun s =>
        { order_id := order_id, driver_id := s.driver_id, response := none,
          response_at := none, distance_km := s.distance_km }) }

/-- `DriverAssignmentService.get_drivers_for_notification`: pick the vehicle
class from the order's weight, select candidates, and persist offer records
only when the candidate list is non-empty. -/
def get_drivers_for_notification (db : DB) (order : OrderRec)
    (route : ℚ × ℚ → ℚ × ℚ → Option RouteInfoQ)
    (fallback_distance : ℚ × ℚ → ℚ × ℚ → ℚ) : List SuitableDriver × DB :=
  let pickup_location := (order.pickup_latitude, order.pickup_longitude)
  let vehicle_type := get_best_vehicle_type_for_order order.weight_kg order.value
  let suitable_drivers := find_available_drivers db.drivers vehicle_type route
    fallback_distance pickup_location
  if suitable_drivers.isEmpty then (suitable_drivers, db)
  else (suitable_drivers, create_order_notifications db order.id suitable_drivers)

/-- Point update of a finite map modelled as a function (`dict[k] = v`, and
`del dict[k]` via `v = none`). -/
def mapSet (f : Nat → Option Nat) (k : Nat) (v : Option Nat) : Nat → Option Nat :=
  fun x => if x = k then v else f x

/-- `websocket_manager.ConnectionManager`: the pair of dicts
`active_connections : driver_id -> websocket` and
`driver_connections : websocket -> driver_id`, with websockets identified by
a numeric handle. -/
structure ConnectionManager where
  active_connections : Nat → Option Nat
  driver_connections : Nat → Option Nat

/-- `ConnectionManager.__init__`: both dicts empty. -/
def ConnectionManager.empty : ConnectionManager :=
  ⟨fun _ => none, fun _ => none⟩

/-- `ConnectionManager.connect` (after the channel is accepted): store the
websocket under the driver id and the driver id under the websocket. -/
def ConnectionManager.connect (m : ConnectionManager) (websocket driver_id : Nat) :
    ConnectionManager :=
  { active_connections := mapSet m.active_connections driver_id (some websocket),
    driver_connections := mapSet m.driver_connections websocket (some driver_id) }

/-- `ConnectionManager.disconnect`: when the websocket is registered, delete
the `active_connections` entry of its driver and the websocket's own
reverse entry; otherwise do nothing. -/
def ConnectionManager.disconnect (m : ConnectionManager) (websocket : Nat) :
    ConnectionManager :=
  match m.driver_connections websocket with
  | none => m
  | some driver_id =>
    { active_connections := mapSet m.active_connections driver_id none,
      driver_connections := mapSet m.driver_connections websocket none }

/-- The addressing step of `ConnectionManager.send_personal_message`: the
websocket the message for `driver_id` is written to, or `none` when the
driver has no live connection (the Python method then returns `False`). -/
def ConnectionManager.sendTarget (m : ConnectionManager) (driver_id : Nat) : Option Nat :=
  m.active_connections driver_id

/-! ### Example database states used by witnesses and counterexamples -/

/-- A state where order 1 was already won by driver 3, while driver 2 is
still available and approved. -/
def exampleTakenDB : DB :=
  { orders := [{ id := 1, driver_id := some 3, pickup_latitude := 0,
                 pickup_longitude := 0, weight_kg := none, value := none,
                 status := OrderStatus.assigned, assigned_at := some 0 }],
    drivers := [{ id := 2, vehicle_type := VehicleType.car,
                  current_latitude := some 0, current_longitude := some 0,
                  status := DriverStatus.available,
                  approval_status := ApprovalStatus.approved }],
    notifications := [] }

/-- A state whose only offer record was already answered (`expired`). -/
def expiredOfferDB : DB :=
  { orders := [], drivers := [],
    notifications := [{ order_id := 1, driver_id := 2, response := some "expired",
                        response_at := some 0, distance_km := 0 }] }

/-! ### General lemmas about `updateFirst` and `List.find?` -/

theorem updateFirst_of_find?_eq_none {α} {p : α → Bool} (f : α → α) {l : List α}
    (h : l.find? p = none) : updateFirst p f l = l := by
  induction l with
  | nil => rfl
  | cons a t ih =>
    by_cases hpa : p a
    · simp [List.find?_cons_of_pos _ hpa] at h
    · rw [List.find?_cons_of_neg _ hpa] at h
      simp [updateFirst, hpa, ih h]

theorem updateFirst_decomp {α} {p : α → Bool} {l : List α} {x : α} (f : α → α)
    (h : l.find? p = some x) :
    ∃ l1 l2, l = l1 ++ x :: l2 ∧ (∀ y ∈ l1, p y = false) ∧ p x = true ∧
      updateFirst p f l = l1 ++ f x :: l2 := by
  induction l with
  | nil => simp at h
  | cons a t ih =>
    by_cases hpa : p a
    · rw [List.find?_cons_of_pos _ hpa] at h
      obtain rfl : a = x := by injection h
      exact ⟨[], t, rfl, by simp, hpa, by simp [updateFirst, hpa]⟩
    · rw [List.find?_cons_of_neg _ hpa] at h
      obtain ⟨l1, l2, hl, h1, hx, hu⟩ := ih h
      refine ⟨a :: l1, l2, by simp [hl], ?_, hx, ?_⟩
      · intro y hy
        rcases List.mem_cons.mp hy with rfl | hy
        · exact Bool.not_eq_true _ ▸ hpa
        · exact h1 y hy
      · simp [updateFirst, hpa, hu]

theorem updateFirst_append_of_head {α} (p : α → Bool) (f : α → α) (l1 l2 : List α)
    (z : α) (h1 : ∀ y ∈ l1, p y = false) (hz : p z = true) :
    updateFirst p f (l1 ++ z :: l2) = l1 ++ f z :: l2 := by
  induction l1 with
  | nil => simp [updateFirst, hz]
  | cons a t ih =>
    have ha : p a = false := h1 a (by simp)
    simp [updateFirst, ha, ih (fun y hy => h1 y (by simp [hy]))]

/-- In a list whose keys are pairwise distinct, two members with the same key
are the same element. -/
theorem eq_of_mem_pairwise_key {α} {key : α → Nat} {l : List α} {x y : α}
    (hpw : l.Pairwise (fun a b => key a ≠ key b))
    (hx : x ∈ l) (hy : y ∈ l) (hk : key x = key y) : x = y := by
  induction l with
  | nil => simp at hx
  | cons a t ih =>
    rcases List.pairwise_cons.mp hpw with ⟨ha, ht⟩
    rcases List.mem_cons.mp hx with hxa | hxt
    · rcases List.mem_cons.mp hy with hya | hyt
      · exact hxa.trans hya.symm
      · exact absurd (by rw [← hxa]; exact hk) (ha y hyt)
    · rcases List.mem_cons.mp hy with hya | hyt
      · exact absurd (by rw [← hya]; exact hk.symm) (ha x hxt)
      · exact ih ht hxt hyt

/-- A keyed `find?` fails when the unique row with that key fails the rest of
the predicate. -/
theorem find?_eq_none_of_unique_fail {α} {p : α → Bool} {key : α → Nat} {k : Nat}
    {l : List α} {x : α}
    (hkey : ∀ y, p y = true → key y = k)
    (hx : x ∈ l) (hxk : key x = k) (hpx : p x = false)
    (hpw : l.Pairwise (fun a b => key a ≠ key b)) :
    l.find? p = none := by
  rw [List.find?_eq_none]
  intro y hy hpy
  have : y = x := eq_of_mem_pairwise_key hpw hy hx ((hkey y hpy).trans hxk.symm)
  rw [this, hpx] at hpy
  exact Bool.false_ne_true hpy

/-- After updating the first `p`-row, a second `p`-search fails, provided the
update destroys `p` and keys are unique. -/
theorem find?_updateFirst_self_eq_none {α} {p : α → Bool} {f : α → α}
    {key : α → Nat} {k : Nat} {l : List α}
    (hkey : ∀ y, p y = true → key y = k)
    (hfx : ∀ y, p y = true → p (f y) = false)
    (hpw : l.Pairwise (fun a b => key a ≠ key b)) :
    (updateFirst p f l).find? p = none := by
  cases h : l.find? p with
  | none => rw [updateFirst_of_find?_eq_none f h]; exact h
  | some x =>
    obtain ⟨l1, l2, hl, h1, hx, hu⟩ := updateFirst_decomp f h
    rw [hu, List.find?_eq_none]
    intro y hy hpy
    rcases List.mem_append.mp hy with hy | hy
    · rw [h1 y hy] at hpy; exact Bool.false_ne_true hpy
    · rcases List.mem_cons.mp hy with rfl | hy
      · rw [hfx x hx] at hpy; exact Bool.false_ne_true hpy
      · subst hl
        have hkx : key x ≠ key y := by
          have := (List.pairwise_append.mp hpw).2.1
          exact (List.pairwise_cons.mp this).1 y hy
        exact hkx ((hkey x hx).trans ((hkey y hpy).symm))

/-- Updating the first `p`-row with a value that still satisfies `p` leaves it
as the first `p`-row. -/
theorem find?_updateFirst_still_matching {α} {p : α → Bool} {f : α → α}
    {l : List α} {x : α}
    (hfind : l.find? p = some x) (hfx : p (f x) = true) :
    (updateFirst p f l).find? p = some (f x) := by
  obtain ⟨l1, l2, _, h1, _, hu⟩ := updateFirst_decomp f hfind
  rw [hu, List.find?_append]
  have : l1.find? p = none := List.find?_eq_none.mpr (fun y hy => by simp [h1 y hy])
  rw [this, Option.none_or, List.find?_cons_of_pos _ hfx]

/-- A `find?` by key alone, after updating the first row matching the stronger
predicate `p`, returns the updated row (keys pairwise distinct). -/
theorem find?_key_updateFirst {α} {p : α → Bool} {f : α → α} {key : α → Nat}
    {k : Nat} {l : List α} {x : α}
    (hfind : l.find? p = some x)
    (hkey : ∀ y, p y = true → key y = k)
    (hfk : key (f x) = k)
    (hpw : l.Pairwise (fun a b => key a ≠ key b)) :
    (updateFirst p f l).find? (fun y => decide (key y = k)) = some (f x) := by
  obtain ⟨l1, l2, hl, _, hx, hu⟩ := updateFirst_decomp f hfind
  rw [hu, List.find?_append]
  have hnone : l1.find? (fun y => decide (key y = k)) = none := by
    rw [List.find?_eq_none]
    intro y hy
    subst hl
    have := (List.pairwise_append.mp hpw).2.2 y hy x (by simp)
    simp [this, (hkey x hx) ▸ this]
  rw [hnone, Option.none_or, List.find?_cons_of_pos _ (by simp [hfk])]

/-- An unrelated `find?` is unchanged by `updateFirst` when the two predicates
cannot both hold, before or after the update. -/
theorem find?_updateFirst_of_disjoint {α} {p q : α → Bool} {f : α → α}
    (l : List α) (h : ∀ y, p y = true → (q y = false ∧ q (f y) = false)) :
    (updateFirst p f l).find? q = l.find? q := by
  induction l with
  | nil => rfl
  | cons a t ih =>
    by_cases hpa : p a
    · obtain ⟨h1, h2⟩ := h a hpa
      simp [updateFirst, hpa, List.find?_cons_of_neg, h1, h2]
    · by_cases hqa : q a
      · simp [updateFirst, hpa, List.find?_cons_of_pos _ hqa]
      · simp [updateFirst, hpa, List.find?_cons_of_neg, hqa, ih]

/-! ### C6: vehicle-class weight ladder -/

/-- C6: `get_best_vehicle_type_for_order` maps the order's weight by a strictly
increasing threshold ladder — weight ≤ 5 gives motorcycle, 5 < weight ≤ 50 gives
car, 50 < weight ≤ 200 gives van, weight > 200 gives truck — and a missing
(`None`) weight is treated as a light weight (defaulted to 1 ≤ 5), giving
motorcycle. -/
theorem C6_vehicle_class_ladder (w : ℚ) (value : Option ℚ) :
    (w ≤ 5 → get_best_vehicle_type_for_order (some w) value = VehicleType.motorcycle) ∧
    (5 < w → w ≤ 50 → get_best_vehicle_type_for_order (some w) value = VehicleType.car) ∧
    (50 < w → w ≤ 200 → get_best_vehicle_type_for_order (some w) value = VehicleType.van) ∧
    (200 < w → get_best_vehicle_type_for_order (some w) value = VehicleType.truck) ∧
    get_best_vehicle_type_for_order none value = VehicleType.motorcycle := by
  refine ⟨fun h => ?_, fun h1 h2 => ?_, fun h1 h2 => ?_, fun h => ?_, ?_⟩ <;>
    simp only [get_best_vehicle_type_for_order, Option.getD_some, Option.getD_none]
  · rw [if_pos h]
  · rw [if_neg (by linarith), if_pos h2]
  · rw [if_neg (by linarith), if_neg (by linarith), if_pos h2]
  · rw [if_neg (by linarith), if_neg (by linarith), if_neg (by linarith)]
  · norm_num

/-- Witness for C6 at concrete weights in each rung of the ladder. -/
theorem C6_vehicle_class_ladder_witness :
    get_best_vehicle_type_for_order (some 5) none = VehicleType.motorcycle ∧
    get_best_vehicle_type_for_order (some 6) none = VehicleType.car ∧
    get_best_vehicle_type_for_order (some 100) none = VehicleType.van ∧
    get_best_vehicle_type_for_order (some 300) none = VehicleType.truck ∧
    get_best_vehicle_type_for_order none none = VehicleType.motorcycle :=
  ⟨(C6_vehicle_class_ladder 5 none).1 (by decide),
   (C6_vehicle_class_ladder 6 none).2.1 (by decide) (by decide),
   (C6_vehicle_class_ladder 100 none).2.2.1 (by decide) (by decide),
   (C6_vehicle_class_ladder 300 none).2.2.2.1 (by decide),
   (C6_vehicle_class_ladder 0 none).2.2.2.2⟩

/-! ### C10: reject with no offer record is a complete no-op -/

/-- C10: when no offer record exists for the (order, driver) pair,
`reject_order` returns the state unchanged — no record created, no order or
driver state changed, no error raised. -/
theorem C10_reject_without_record_noop (db : DB) (order_id driver_id now : Nat)
    (h : ∀ n ∈ db.notifications, ¬(n.order_id = order_id ∧ n.driver_id = driver_id)) :
    reject_order db order_id driver_id now = db := by
  have hfind : db.notifications.find? (isOfferOf order_id driver_id) = none := by
    rw [List.find?_eq_none]
    intro n hn
    simp only [isOfferOf, decide_eq_true_eq]
    exact h n hn
  simp [reject_order, hfind]

/-- Witness for C10 on a concrete state holding one unrelated offer record. -/
theorem C10_reject_without_record_noop_witness :
    reject_order expiredOfferDB 7 9 3 = expiredOfferDB :=
  C10_reject_without_record_noop expiredOfferDB 7 9 3 (by decide)

/-! ### C4: persistence failure — rollback is total, but the result is not a
distinct error kind -/

/-- Counterexample to C4 as stated: the Python function returns the bare
boolean `False` both when the attempt loses the race (order 1 already
assigned) and when a persistence failure rolls the transaction back, so the
`PersistenceFailure` outcome is not distinguishable from `AlreadyTaken` at
the call boundary. -/
theorem C4_counterexample :
    tryAssignResult exampleTakenDB 1 2 0 true =
      tryAssignResult exampleTakenDB 1 2 0 false ∧
    (tryAssignResult exampleTakenDB 1 2 0 true).1 = false ∧
    (tryAssignResult exampleTakenDB 1 2 0 false).1 = false := by
  refine ⟨?_, rfl, ?_⟩ <;> decide

/-- C4 (amended): a persistence failure during the `tryAssign` transaction
rolls back every mutation of the order, the driver and the offer records —
the committed state is exactly the pre-call state — and the failure is
surfaced as the boolean result `False`, the same value as the race-lost
result (not a distinct error kind). -/
theorem C4_rollback_all_or_nothing (db : DB) (order_id driver_id now : Nat) :
    tryAssignResult db order_id driver_id now true = (false, db) := rfl

/-! ### C8: reject is idempotent, but not a no-op on answered offers -/

/-- Counterexample to C8 as stated: on a state whose (order 1, driver 2)
offer record is already answered (`expired`, as happens after the order was
assigned to someone else), `reject_order` is not a no-op — it overwrites the
answered record's response with `rejected` and restamps its response time. -/
theorem C8_counterexample :
    reject_order expiredOfferDB 1 2 5 ≠ expiredOfferDB ∧
    (reject_order expiredOfferDB 1 2 5).notifications =
      [{ order_id := 1, driver_id := 2, response := some "rejected",
         response_at := some 5, distance_km := 0 }] := by
  refine ⟨?_, ?_⟩ <;> decide

/-- C8 (amended): `reject_order` is idempotent at a fixed response timestamp
(rejecting twice yields the very state of rejecting once) and never mutates
the order or driver tables; but rejecting after the offer was already
answered (`accepted` or `expired`) is not a no-op: it overwrites the first
matching offer record's response with `rejected` and restamps its response
timestamp, leaving order and driver state untouched. -/
theorem C8_reject_idempotent_overwrites (db : DB) (order_id driver_id now : Nat) :
    reject_order (reject_order db order_id driver_id now) order_id driver_id now =
      reject_order db order_id driver_id now ∧
    (reject_order db order_id driver_id now).orders = db.orders ∧
    (reject_order db order_id driver_id now).drivers = db.drivers ∧
    (∀ n, db.notifications.find? (isOfferOf order_id driver_id) = some n →
      (reject_order db order_id driver_id now).notifications.find?
          (isOfferOf order_id driver_id) =
        some { n with response := some "rejected", response_at := some now }) := by
  cases hfind : db.notifications.find? (isOfferOf order_id driver_id) with
  | none =>
    refine ⟨?_, ?_, ?_, ?_⟩
    · simp [reject_order, hfind]
    · simp [reject_order, hfind]
    · simp [reject_order, hfind]
    · intro n hn
      exact absurd hn (by simp)
  | some n =>
    have hmatch : ∀ m : OrderNotification, isOfferOf order_id driver_id m = true →
        isOfferOf order_id driver_id
          { m with response := some "rejected", response_at := some now } = true := by
      intro m hm
      simpa [isOfferOf] using (by simpa [isOfferOf] using hm :
        m.order_id = order_id ∧ m.driver_id = driver_id)
    have hp : isOfferOf order_id driver_id n = true := List.find?_some hfind
    have hstill := @find?_updateFirst_still_matching _ _
      (fun m => { m with response := some "rejected", response_at := some now })
      _ _ hfind (hmatch n hp)
    obtain ⟨l1, l2, hl, h1, hx, hu⟩ := updateFirst_decomp
      (fun m => { m with response := some "rejected", response_at := some now }) hfind
    have hrej1 : (reject_order db order_id driver_id now).notifications =
        updateFirst (isOfferOf order_id driver_id)
          (fun m => { m with response := some "rejected", response_at := some now })
          db.notifications := by
      simp [reject_order, hfind]
    have hidem : updateFirst (isOfferOf order_id driver_id)
          (fun m => { m with response := some "rejected", response_at := some now })
          (updateFirst (isOfferOf order_id driver_id)
            (fun m => { m with response := some "rejected", response_at := some now })
            db.notifications) =
        updateFirst (isOfferOf order_id driver_id)
          (fun m => { m with response := some "rejected", response_at := some now })
          db.notifications := by
      rw [hu]
      exact updateFirst_append_of_head _ _ l1 l2 _ h1 (hmatch n hp)
    have hfind2 : (reject_order db order_id driver_id now).notifications.find?
        (isOfferOf order_id driver_id) =
        some { n with response := some "rejected", response_at := some now } := by
      rw [hrej1]
      exact hstill
    refine ⟨?_, by simp [reject_order, hfind], by simp [reject_order, hfind], ?_⟩
    · have hDB1 : reject_order db order_id driver_id now =
          { db with
            notifications :=
              updateFirst (isOfferOf order_id driver_id)
                (fun m => { m with response := some "rejected", response_at := some now })
                db.notifications } := by
        simp [reject_order, hfind]
      rw [hDB1]
      simp only [reject_order, hstill]
      rw [hidem]
    · intro m hm
      have hnm : n = m := by injection hm
      subst hnm
      exact hfind2

/-- Witness for C8 (amended) on the concrete answered-offer state: rejecting
twice equals rejecting once, and the answered record is overwritten to
`rejected` with the new timestamp. -/
theorem C8_reject_idempotent_overwrites_witness :
    reject_order (reject_order expiredOfferDB 1 2 5) 1 2 5 =
      reject_order expiredOfferDB 1 2 5 ∧
    (reject_order expiredOfferDB 1 2 5).notifications.find? (isOfferOf 1 2) =
      some { order_id := 1, driver_id := 2, response := some "rejected",
             response_at := some 5, distance_km := 0 } :=
  ⟨(C8_reject_idempotent_overwrites expiredOfferDB 1 2 5).1,
   (C8_reject_idempotent_overwrites expiredOfferDB 1 2 5).2.2.2
     { order_id := 1, driver_id := 2, response := some "expired",
       response_at := some 0, distance_km := 0 } (by decide)⟩

/-! ### C9: the connection registry on re-registration -/

/-- Counterexample to C9 as stated: after registering driver 1 on websocket
100 and then on websocket 200, the superseded websocket 100 still appears in
the connection-to-driver reverse map (its entry is never removed by
`connect`), so the two maps are not kept consistent as a pair and the first
connection has not vanished from both maps. -/
theorem C9_counterexample :
    ((ConnectionManager.empty.connect 100 1).connect 200 1).driver_connections 100 =
      some 1 := by
  decide

/-- C9 (amended): `connect` writes both maps on every registration, and after
registering driver `d` twice only the second websocket is addressable —
`active_connections` and `sendTarget` both give the second websocket — but
the superseded first websocket's reverse-mapping entry is not removed: both
websockets still map to `d` in the connection-to-driver map. -/
theorem C9_register_supersedes_addressing (m : ConnectionManager)
    (w1 w2 d : Nat) (hw : w1 ≠ w2) :
    ((m.connect w1 d).connect w2 d).active_connections d = some w2 ∧
    ((m.connect w1 d).connect w2 d).sendTarget d = some w2 ∧
    ((m.connect w1 d).connect w2 d).driver_connections w2 = some d ∧
    ((m.connect w1 d).connect w2 d).driver_connections w1 = some d := by
  refine ⟨?_, ?_, ?_, ?_⟩ <;>
    simp [ConnectionManager.connect, ConnectionManager.sendTarget, mapSet, hw]

/-- Witness for C9 (amended) at concrete websockets 100 ≠ 200. -/
theorem C9_register_supersedes_addressing_witness :
    ((ConnectionManager.empty.connect 100 1).connect 200 1).active_connections 1 =
      some 200 ∧
    ((ConnectionManager.empty.connect 100 1).connect 200 1).sendTarget 1 = some 200 ∧
    ((ConnectionManager.empty.connect 100 1).connect 200 1).driver_connections 200 =
      some 1 ∧
    ((ConnectionManager.empty.connect 100 1).connect 200 1).driver_connections 100 =
      some 1 :=
  C9_register_supersedes_addressing ConnectionManager.empty 100 200 1 (by decide)

/-- Membership is preserved by `updateFirst` for elements failing `p`. -/
theorem mem_updateFirst_of_not_p {α} {p : α → Bool} {f : α → α} {l : List α} {m : α}
    (hm : m ∈ l) (hpm : p m = false) : m ∈ updateFirst p f l := by
  induction l with
  | nil => simp at hm
  | cons a t ih =>
    by_cases hpa : p a
    · rcases List.mem_cons.mp hm with rfl | hmt
      · exact absurd hpa (by simp [hpm])
      · simp only [updateFirst, hpa, if_true]
        exact List.mem_cons.mpr (Or.inr hmt)
    · rcases List.mem_cons.mp hm with rfl | hmt
      · simp [updateFirst, hpa]
      · simp [updateFirst, hpa, ih hmt]

/-- `find?` through a `map` whose function does not change the predicate. -/
theorem find?_map_pred_invariant {α} {p : α → Bool} {g : α → α} {l : List α} {x : α}
    (h : l.find? p = some x) (hg : ∀ y, p (g y) = p y) :
    (l.map g).find? p = some (g x) := by
  induction l with
  | nil => simp at h
  | cons a t ih =>
    by_cases hpa : p a
    · rw [List.find?_cons_of_pos _ hpa] at h
      injection h with h
      subst h
      rw [List.map_cons, List.find?_cons_of_pos _ (by rw [hg]; exact hpa)]
    · rw [List.find?_cons_of_neg _ hpa] at h
      rw [List.map_cons, List.find?_cons_of_neg _ (by rw [hg]; exact hpa)]
      exact ih h

/-- In a list with pairwise-distinct keys, the keyed `find?` returns the
member with that key. -/
theorem find?_key_of_mem {α} {key : α → Nat} {k : Nat} {l : List α} {x : α}
    (hpw : l.Pairwise (fun a b => key a ≠ key b)) (hx : x ∈ l) (hk : key x = k) :
    l.find? (fun y => decide (key y = k)) = some x := by
  induction l with
  | nil => simp at hx
  | cons a t ih =>
    rcases List.pairwise_cons.mp hpw with ⟨ha, ht⟩
    rcases List.mem_cons.mp hx with hxa | hxt
    · subst hxa
      rw [List.find?_cons_of_pos _ (by simp [hk])]
    · have hne : key a ≠ k := fun h => (ha x hxt) (h.trans hk.symm)
      rw [List.find?_cons_of_neg _ (by simp [hne]), ih ht hxt]

/-- When the locking `Order` query returns no row, the attempt fails with the
state unchanged. -/
theorem assign_fails_of_no_pending (s : DB) (order_id driver_id now : Nat)
    (h : s.orders.find? (isPendingOrder order_id) = none) :
    assign_order_to_first_accepter s order_id driver_id now = (false, s) := by
  simp [assign_order_to_first_accepter, h]

/-! ### C3: stale attempts fail with no side effects -/

/-- C3: `assign_order_to_first_accepter` returns the race-lost result `False`
and leaves the state completely unchanged whenever the order is no longer
pending, or the candidate driver is not simultaneously available and
approved. -/
theorem C3_stale_attempt_no_side_effects (db : DB) (order_id driver_id now : Nat) :
    ((∀ o ∈ db.orders, o.id = order_id → o.status ≠ OrderStatus.pending) →
      assign_order_to_first_accepter db order_id driver_id now = (false, db)) ∧
    ((∀ d ∈ db.drivers, d.id = driver_id →
        ¬(d.status = DriverStatus.available ∧
          d.approval_status = ApprovalStatus.approved)) →
      assign_order_to_first_accepter db order_id driver_id now = (false, db)) := by
  constructor
  · intro h
    have hfind : db.orders.find? (isPendingOrder order_id) = none := by
      rw [List.find?_eq_none]
      intro o ho hpo
      obtain ⟨h1, h2⟩ : o.id = order_id ∧ o.status = OrderStatus.pending := by
        simpa [isPendingOrder] using hpo
      exact h o ho h1 h2
    simp [assign_order_to_first_accepter, hfind]
  · intro h
    have hfind : db.drivers.find? (isFreeApprovedDriver driver_id) = none := by
      rw [List.find?_eq_none]
      intro d hd hpd
      obtain ⟨h1, h2, h3⟩ : d.id = driver_id ∧ d.status = DriverStatus.available ∧
          d.approval_status = ApprovalStatus.approved := by
        simpa [isFreeApprovedDriver] using hpd
      exact h d hd h1 ⟨h2, h3⟩
    cases ho : db.orders.find? (isPendingOrder order_id) with
    | none => simp [assign_order_to_first_accepter, ho]
    | some o => simp [assign_order_to_first_accepter, ho, hfind]

/-- A state with a pending order 1 but whose only matching driver 2 is busy. -/
def exampleBusyDriverDB : DB :=
  { orders := [{ id := 1, driver_id := none, pickup_latitude := 0,
                 pickup_longitude := 0, weight_kg := none, value := none,
                 status := OrderStatus.pending, assigned_at := none }],
    drivers := [{ id := 2, vehicle_type := VehicleType.car,
                  current_latitude := some 0, current_longitude := some 0,
                  status := DriverStatus.busy,
                  approval_status := ApprovalStatus.approved }],
    notifications := [] }

/-- Witness for C3: a non-pending order and a busy driver each make the
attempt fail with the state unchanged. -/
theorem C3_stale_attempt_no_side_effects_witness :
    assign_order_to_first_accepter exampleTakenDB 1 2 0 = (false, exampleTakenDB) ∧
    assign_order_to_first_accepter exampleBusyDriverDB 1 2 0 =
      (false, exampleBusyDriverDB) :=
  ⟨(C3_stale_attempt_no_side_effects exampleTakenDB 1 2 0).1 (by decide),
   (C3_stale_attempt_no_side_effects exampleBusyDriverDB 1 2 0).2 (by decide)⟩

/-! ### C2: post-state of a successful assignment -/

/-- C2: when the order is still pending and the driver still available and
approved at lock time (both `FOR UPDATE` queries return a row), the committed
post-state of `assign_order_to_first_accepter` has the order assigned and
bound to the driver with the assignment time stamped, the driver busy, the
driver's offer record for the order marked `accepted` with a response
timestamp, and every other still-unanswered offer record of the order marked
`expired` with a response timestamp. -/
theorem C2_successful_assign_post_state (db : DB) (order_id driver_id now : Nat)
    (o : OrderRec) (d : DriverRec) (n : OrderNotification)
    (hpwO : db.orders.Pairwise (fun x y => x.id ≠ y.id))
    (hpwD : db.drivers.Pairwise (fun x y => x.id ≠ y.id))
    (ho : db.orders.find? (isPendingOrder order_id) = some o)
    (hd : db.drivers.find? (isFreeApprovedDriver driver_id) = some d)
    (hn : db.notifications.find? (isOfferOf order_id driver_id) = some n) :
    (assign_order_to_first_accepter db order_id driver_id now).1 = true ∧
    (assign_order_to_first_accepter db order_id driver_id now).2.orders.find?
        (fun x => decide (x.id = order_id)) =
      some { o with driver_id := some driver_id, status := OrderStatus.assigned,
                    assigned_at := some now } ∧
    (assign_order_to_first_accepter db order_id driver_id now).2.drivers.find?
        (fun x => decide (x.id = driver_id)) =
      some { d with status := DriverStatus.busy } ∧
    (assign_order_to_first_accepter db order_id driver_id now).2.notifications.find?
        (isOfferOf order_id driver_id) =
      some { n with response := some "accepted", response_at := some now } ∧
    (∀ m ∈ db.notifications, m.order_id = order_id → m.driver_id ≠ driver_id →
      m.response = none →
      { m with response := some "expired", response_at := some now } ∈
        (assign_order_to_first_accepter db order_id driver_id now).2.notifications) := by
  have hred : assign_order_to_first_accepter db order_id driver_id now =
      (true,
        { orders := updateFirst (isPendingOrder order_id)
            (fun x => { x with driver_id := some driver_id,
                               status := OrderStatus.assigned,
                               assigned_at := some now }) db.orders,
          drivers := updateFirst (isFreeApprovedDriver driver_id)
            (fun x => { x with status := DriverStatus.busy }) db.drivers,
          notifications := (updateFirst (isOfferOf order_id driver_id)
              (fun x => { x with response := some "accepted",
                                 response_at := some now }) db.notifications).map
            (fun x => if x.order_id = order_id ∧ x.driver_id ≠ driver_id ∧
                x.response = none then
              { x with response := some "expired", response_at := some now }
            else x) }) := by
    simp only [assign_order_to_first_accepter, ho, hd]
  have hoid : o.id = order_id := by
    have := List.find?_some ho
    exact (by simpa [isPendingOrder] using this :
      o.id = order_id ∧ o.status = OrderStatus.pending).1
  have hdid : d.id = driver_id := by
    have := List.find?_some hd
    exact (by simpa [isFreeApprovedDriver] using this :
      d.id = driver_id ∧ _ ∧ _).1
  have hnid : n.order_id = order_id ∧ n.driver_id = driver_id := by
    have := List.find?_some hn
    simpa [isOfferOf] using this
  have hginv : ∀ y : OrderNotification,
      isOfferOf order_id driver_id
        (if y.order_id = order_id ∧ y.driver_id ≠ driver_id ∧ y.response = none then
          { y with response := some "expired", response_at := some now }
        else y) = isOfferOf order_id driver_id y := by
    intro y
    by_cases hy : y.order_id = order_id ∧ y.driver_id ≠ driver_id ∧ y.response = none
    · simp [hy, isOfferOf]
    · simp [hy]
  refine ⟨by rw [hred], ?_, ?_, ?_, ?_⟩
  · rw [hred]
    exact find?_key_updateFirst ho
      (fun y hy => ((by simpa [isPendingOrder] using hy :
        y.id = order_id ∧ y.status = OrderStatus.pending)).1)
      hoid hpwO
  · rw [hred]
    exact find?_key_updateFirst hd
      (fun y hy => ((by simpa [isFreeApprovedDriver] using hy :
        y.id = driver_id ∧ _ ∧ _)).1)
      hdid hpwD
  · rw [hred]
    have hstill := @find?_updateFirst_still_matching _ _
      (fun x : OrderNotification =>
        { x with response := some "accepted", response_at := some now })
      _ _ hn (by simp [isOfferOf, hnid.1, hnid.2])
    have := find?_map_pred_invariant hstill hginv
    rw [this]
    have : ¬({ n with response := some "accepted", response_at := some now
        } : OrderNotification).driver_id ≠ driver_id := by simp [hnid.2]
    simp [hnid.2]
  · intro m hm h1 h2 h3
    rw [hred]
    have hmfail : isOfferOf order_id driver_id m = false := by
      simp [isOfferOf, h2]
    have hm1 : m ∈ updateFirst (isOfferOf order_id driver_id)
        (fun x => { x with response := some "accepted", response_at := some now })
        db.notifications := mem_updateFirst_of_not_p hm hmfail
    have := List.mem_map_of_mem (fun x : OrderNotification =>
      if x.order_id = order_id ∧ x.driver_id ≠ driver_id ∧ x.response = none then
        { x with response := some "expired", response_at := some now }
      else x) hm1
    simpa [h1, h2, h3] using this

/-! ### C1: exactly one winner under a race -/

/-- C1: the `SELECT ... FOR UPDATE` row locks serialize the two concurrent
`tryAssign` transactions on the same pending order, so the concurrent
execution is equivalent to running the two atomic transactions in sequence
(this theorem covers both serialization orders, being symmetric in the two
drivers up to renaming): the first attempt returns `Assigned` (`True`), the
second returns `AlreadyTaken` (`False`) with no further state change, and
afterwards the order is bound to exactly the winning driver, the winner is
`busy`, and the loser still holds its unchanged (available) row. -/
theorem C1_exactly_one_winner (db : DB) (order_id dA dB now1 now2 : Nat)
    (o : OrderRec) (a b : DriverRec)
    (hAB : dA ≠ dB)
    (hpwO : db.orders.Pairwise (fun x y => x.id ≠ y.id))
    (hpwD : db.drivers.Pairwise (fun x y => x.id ≠ y.id))
    (ho : db.orders.find? (isPendingOrder order_id) = some o)
    (hdA : db.drivers.find? (isFreeApprovedDriver dA) = some a)
    (hdB : db.drivers.find? (isFreeApprovedDriver dB) = some b) :
    (assign_order_to_first_accepter db order_id dA now1).1 = true ∧
    (assign_order_to_first_accepter
        (assign_order_to_first_accepter db order_id dA now1).2 order_id dB now2).1 =
      false ∧
    (assign_order_to_first_accepter
        (assign_order_to_first_accepter db order_id dA now1).2 order_id dB now2).2 =
      (assign_order_to_first_accepter db order_id dA now1).2 ∧
    (assign_order_to_first_accepter db order_id dA now1).2.orders.find?
        (fun x => decide (x.id = order_id)) =
      some { o with driver_id := some dA, status := OrderStatus.assigned,
                    assigned_at := some now1 } ∧
    (assign_order_to_first_accepter db order_id dA now1).2.drivers.find?
        (fun x => decide (x.id = dA)) =
      some { a with status := DriverStatus.busy } ∧
    (assign_order_to_first_accepter db order_id dA now1).2.drivers.find?
        (fun x => decide (x.id = dB)) = some b ∧
    b.status = DriverStatus.available := by
  have hred : assign_order_to_first_accepter db order_id dA now1 =
      (true,
        { orders := updateFirst (isPendingOrder order_id)
            (fun x => { x with driver_id := some dA,
                               status := OrderStatus.assigned,
                               assigned_at := some now1 }) db.orders,
          drivers := updateFirst (isFreeApprovedDriver dA)
            (fun x => { x with status := DriverStatus.busy }) db.drivers,
          notifications := (updateFirst (isOfferOf order_id dA)
              (fun x => { x with response := some "accepted",
                                 response_at := some now1 }) db.notifications).map
            (fun x => if x.order_id = order_id ∧ x.driver_id ≠ dA ∧
                x.response = none then
              { x with response := some "expired", response_at := some now1 }
            else x) }) := by
    simp only [assign_order_to_first_accepter, ho, hdA]
  have hoid : o.id = order_id := by
    have := List.find?_some ho
    exact (by simpa [isPendingOrder] using this :
      o.id = order_id ∧ o.status = OrderStatus.pending).1
  have haid : a.id = dA := by
    have := List.find?_some hdA
    exact (by simpa [isFreeApprovedDriver] using this :
      a.id = dA ∧ _ ∧ _).1
  have hbfacts : b.id = dB ∧ b.status = DriverStatus.available ∧
      b.approval_status = ApprovalStatus.approved := by
    have := List.find?_some hdB
    simpa [isFreeApprovedDriver] using this
  have hnopending : (assign_order_to_first_accepter db order_id dA now1).2.orders.find?
      (isPendingOrder order_id) = none := by
    rw [hred]
    exact @find?_updateFirst_self_eq_none _ _ _ OrderRec.id order_id _
      (fun y hy => ((by simpa [isPendingOrder] using hy :
        y.id = order_id ∧ y.status = OrderStatus.pending)).1)
      (fun y _ => by simp [isPendingOrder])
      hpwO
  have hsecond : assign_order_to_first_accepter
      (assign_order_to_first_accepter db order_id dA now1).2 order_id dB now2 =
      (false, (assign_order_to_first_accepter db order_id dA now1).2) :=
    assign_fails_of_no_pending _ order_id dB now2 hnopending
  refine ⟨by rw [hred], by rw [hsecond], by rw [hsecond], ?_, ?_, ?_, hbfacts.2.1⟩
  · rw [hred]
    exact find?_key_updateFirst ho
      (fun y hy => ((by simpa [isPendingOrder] using hy :
        y.id = order_id ∧ y.status = OrderStatus.pending)).1)
      hoid hpwO
  · rw [hred]
    exact find?_key_updateFirst hdA
      (fun y hy => ((by simpa [isFreeApprovedDriver] using hy :
        y.id = dA ∧ _ ∧ _)).1)
      haid hpwD
  · rw [hred]
    have hdisj : ∀ y : DriverRec, isFreeApprovedDriver dA y = true →
        ((fun x : DriverRec => decide (x.id = dB)) y = false ∧
         (fun x : DriverRec => decide (x.id = dB))
           ({ y with status := DriverStatus.busy }) = false) := by
      intro y hy
      have hyid : y.id = dA := (by simpa [isFreeApprovedDriver] using hy :
        y.id = dA ∧ _ ∧ _).1
      constructor <;> simp [hyid, hAB]
    rw [find?_updateFirst_of_disjoint db.drivers hdisj]
    exact find?_key_of_mem hpwD (List.mem_of_find?_eq_some hdB) hbfacts.1

/-- A pending order 1 with two available approved car drivers 2 and 3, both
holding unanswered offer records for the order. -/
def exampleRaceDB : DB :=
  { orders := [{ id := 1, driver_id := none, pickup_latitude := 0,
                 pickup_longitude := 0, weight_kg := none, value := none,
                 status := OrderStatus.pending, assigned_at := none }],
    drivers := [{ id := 2, vehicle_type := VehicleType.car,
                  current_latitude := some 0, current_longitude := some 0,
                  status := DriverStatus.available,
                  approval_status := ApprovalStatus.approved },
                { id := 3, vehicle_type := VehicleType.car,
                  current_latitude := some 0, current_longitude := some 0,
                  status := DriverStatus.available,
                  approval_status := ApprovalStatus.approved }],
    notifications := [{ order_id := 1, driver_id := 2, response := none,
                        response_at := none, distance_km := 5 },
                      { order_id := 1, driver_id := 3, response := none,
                        response_at := none, distance_km := 7 }] }

/-- Witness for C1 on the concrete race: driver 2 accepts first, driver 3
second. -/
theorem C1_exactly_one_winner_witness :
    (assign_order_to_first_accepter exampleRaceDB 1 2 10).1 = true ∧
    (assign_order_to_first_accepter
        (assign_order_to_first_accepter exampleRaceDB 1 2 10).2 1 3 11).1 = false ∧
    (assign_order_to_first_accepter
        (assign_order_to_first_accepter exampleRaceDB 1 2 10).2 1 3 11).2 =
      (assign_order_to_first_accepter exampleRaceDB 1 2 10).2 ∧
    (assign_order_to_first_accepter exampleRaceDB 1 2 10).2.orders.find?
        (fun x => decide (x.id = 1)) =
      some { id := 1, driver_id := some 2, pickup_latitude := 0,
             pickup_longitude := 0, weight_kg := none, value := none,
             status := OrderStatus.assigned, assigned_at := some 10 } ∧
    (assign_order_to_first_accepter exampleRaceDB 1 2 10).2.drivers.find?
        (fun x => decide (x.id = 2)) =
      some { id := 2, vehicle_type := VehicleType.car,
             current_latitude := some 0, current_longitude := some 0,
             status := DriverStatus.busy,
             approval_status := ApprovalStatus.approved } ∧
    (assign_order_to_first_accepter exampleRaceDB 1 2 10).2.drivers.find?
        (fun x => decide (x.id = 3)) =
      some { id := 3, vehicle_type := VehicleType.car,
             current_latitude := some 0, current_longitude := some 0,
             status := DriverStatus.available,
             approval_status := ApprovalStatus.approved } ∧
    DriverStatus.available = DriverStatus.available :=
  C1_exactly_one_winner exampleRaceDB 1 2 3 10 11
    { id := 1, driver_id := none, pickup_latitude := 0, pickup_longitude := 0,
      weight_kg := none, value := none, status := OrderStatus.pending,
      assigned_at := none }
    { id := 2, vehicle_type := VehicleType.car, current_latitude := some 0,
      current_longitude := some 0, status := DriverStatus.available,
      approval_status := ApprovalStatus.approved }
    { id := 3, vehicle_type := VehicleType.car, current_latitude := some 0,
      current_longitude := some 0, status := DriverStatus.available,
      approval_status := ApprovalStatus.approved }
    (by decide) (by decide) (by decide) (by decide) (by decide) (by decide)

/-- Witness for C2 on the concrete race state: driver 2's successful attempt
stamps the order, flips the driver to busy, accepts its offer and expires
driver 3's unanswered offer. -/
theorem C2_successful_assign_post_state_witness :
    (assign_order_to_first_accepter exampleRaceDB 1 2 42).1 = true ∧
    (assign_order_to_first_accepter exampleRaceDB 1 2 42).2.orders.find?
        (fun x => decide (x.id = 1)) =
      some { id := 1, driver_id := some 2, pickup_latitude := 0,
             pickup_longitude := 0, weight_kg := none, value := none,
             status := OrderStatus.assigned, assigned_at := some 42 } ∧
    (assign_order_to_first_accepter exampleRaceDB 1 2 42).2.drivers.find?
        (fun x => decide (x.id = 2)) =
      some { id := 2, vehicle_type := VehicleType.car,
             current_latitude := some 0, current_longitude := some 0,
             status := DriverStatus.busy,
             approval_status := ApprovalStatus.approved } ∧
    (assign_order_to_first_accepter exampleRaceDB 1 2 42).2.notifications.find?
        (isOfferOf 1 2) =
      some { order_id := 1, driver_id := 2, response := some "accepted",
             response_at := some 42, distance_km := 5 } ∧
    ({ order_id := 1, driver_id := 3, response := some "expired",
       response_at := some 42, distance_km := 7 } : OrderNotification) ∈
      (assign_order_to_first_accepter exampleRaceDB 1 2 42).2.notifications := by
  have h := C2_successful_assign_post_state exampleRaceDB 1 2 42
    { id := 1, driver_id := none, pickup_latitude := 0, pickup_longitude := 0,
      weight_kg := none, value := none, status := OrderStatus.pending,
      assigned_at := none }
    { id := 2, vehicle_type := VehicleType.car, current_latitude := some 0,
      current_longitude := some 0, status := DriverStatus.available,
      approval_status := ApprovalStatus.approved }
    { order_id := 1, driver_id := 2, response := none, response_at := none,
      distance_km := 5 }
    (by decide) (by decide) (by decide) (by decide) (by decide)
  exact ⟨h.1, h.2.1, h.2.2.1, h.2.2.2.1,
    h.2.2.2.2 { order_id := 1, driver_id := 3, response := none,
                response_at := none, distance_km := 7 }
      (by decide) (by decide) (by decide) (by decide)⟩

/-! ### C7: haversine fallback of the distance estimator -/

/-- C7: when the routing oracle fails, the fallback distance is the haversine
great-circle distance with earth radius 6371 km on degree inputs converted to
radians — so a point is at distance 0 from itself and (0°,0°) to (0°,1°) is
111.19 km within 0.5 km — and the fallback duration in minutes is exactly
twice the fallback distance in kilometers (so 10 km gives exactly 20
minutes). -/
theorem C7_haversine_fallback :
    (∀ p : ℝ × ℝ, calculate_haversine_distance p p = 0) ∧
    |calculate_haversine_distance (0, 0) (0, 1) - 111.19| ≤ 0.5 ∧
    (∀ (pickup : ℝ × ℝ) (driver_locations : List (ℝ × ℝ × Nat)),
      calculate_drivers_distances (fun _ _ => none) pickup driver_locations =
        driver_locations.map (fun loc =>
          { driver_id := loc.2.2,
            distance_km := calculate_haversine_distance pickup (loc.1, loc.2.1),
            duration_minutes :=
              calculate_haversine_distance pickup (loc.1, loc.2.1) * 2 })) := by
  refine ⟨?_, ?_, ?_⟩
  · intro p
    simp [calculate_haversine_distance, Real.arcsin_zero]
  · have hpi := Real.pi_pos
    have key : calculate_haversine_distance (0, 0) (0, 1) =
        6371 * (Real.pi / 180) := by
      simp only [calculate_haversine_distance]
      norm_num
      have hs : 0 ≤ Real.sin (Real.pi / 180 / 2) :=
        Real.sin_nonneg_of_nonneg_of_le_pi (by positivity) (by nlinarith)
      rw [Real.sqrt_sq_eq_abs, abs_of_nonneg hs,
        Real.arcsin_sin (by nlinarith) (by nlinarith)]
      ring
    rw [key, abs_le]
    constructor <;> nlinarith [Real.pi_gt_d6, Real.pi_lt_d6]
  · intro pickup driver_locations
    rfl

/-! ### C5: candidate selection and offer persistence -/

/-- The distance the estimator attaches to a driver's last known position
(oracle value, or the fallback on oracle failure), as computed inside
`calculate_drivers_distances`. -/
def driverDist (route : ℚ × ℚ → ℚ × ℚ → Option RouteInfoQ)
    (fallback_distance : ℚ × ℚ → ℚ × ℚ → ℚ)
    (pickup_location : ℚ × ℚ) (d : DriverRec) : ℚ :=
  match route pickup_location
      (d.current_latitude.getD 0, d.current_longitude.getD 0) with
  | some ri => ri.distance_km
  | none => fallback_distance pickup_location
      (d.current_latitude.getD 0, d.current_longitude.getD 0)

/-- The duration the estimator attaches to a driver's last known position. -/
def driverDur (route : ℚ × ℚ → ℚ × ℚ → Option RouteInfoQ)
    (fallback_distance : ℚ × ℚ → ℚ × ℚ → ℚ)
    (pickup_location : ℚ × ℚ) (d : DriverRec) : ℚ :=
  match route pickup_location
      (d.current_latitude.getD 0, d.current_longitude.getD 0) with
  | some ri => ri.duration_minutes
  | none => fallback_distance pickup_location
      (d.current_latitude.getD 0, d.current_longitude.getD 0) * 2

/-- Normal form of the selection pipeline: filter the fleet, keep the
in-radius candidates with their estimated metrics, sort by distance, and
truncate to the fan-out limit. -/
theorem find_available_drivers_eq (all_drivers : List DriverRec)
    (vehicle_type : VehicleType)
    (route : ℚ × ℚ → ℚ × ℚ → Option RouteInfoQ)
    (fallback_distance : ℚ × ℚ → ℚ × ℚ → ℚ)
    (pickup_location : ℚ × ℚ) :
    find_available_drivers all_drivers vehicle_type route fallback_distance
      pickup_location =
    (List.insertionSort (fun a b => a.distance_km ≤ b.distance_km)
      ((all_drivers.filter (isCandidateDriver vehicle_type)).filterMap (fun d =>
        if driverDist route fallback_distance pickup_location d ≤ MAX_DISTANCE_KM then
          some (⟨d.id, driverDist route fallback_distance pickup_location d,
                 driverDur route fallback_distance pickup_location d⟩ : SuitableDriver)
        else none))).take MAX_DRIVERS_TO_NOTIFY := by
  by_cases hemp : (all_drivers.filter (isCandidateDriver vehicle_type)).isEmpty
  · rw [List.isEmpty_iff] at hemp
    simp [find_available_drivers, hemp]
  · have hsome : ∀ d ∈ all_drivers.filter (isCandidateDriver vehicle_type),
        d.current_latitude ≠ none ∧ d.current_longitude ≠ none := by
      intro d hd
      have := (List.mem_filter.mp hd).2
      have h := (by simpa [isCandidateDriver] using this :
        d.status = DriverStatus.available ∧
        d.approval_status = ApprovalStatus.approved ∧
        d.vehicle_type = vehicle_type ∧
        d.current_latitude ≠ none ∧ d.current_longitude ≠ none)
      exact ⟨h.2.2.2.1, h.2.2.2.2⟩
    have hlocs : (all_drivers.filter (isCandidateDriver vehicle_type)).filterMap
        (fun d : DriverRec =>
          match d.current_latitude, d.current_longitude with
          | some la, some lo => some (la, lo, d.id)
          | _, _ => none) =
        (all_drivers.filter (isCandidateDriver vehicle_type)).map
          (fun d => (d.current_latitude.getD 0, d.current_longitude.getD 0, d.id)) := by
      rw [← List.filterMap_eq_map]
      apply List.filterMap_congr
      intro d hd
      obtain ⟨hla, hlo⟩ := hsome d hd
      cases ha : d.current_latitude with
      | none => exact absurd ha hla
      | some la =>
        cases hb : d.current_longitude with
        | none => exact absurd hb hlo
        | some lo => simp [ha, hb]
    have hdists : calculate_drivers_distancesQ route fallback_distance pickup_location
        ((all_drivers.filter (isCandidateDriver vehicle_type)).map
          (fun d => (d.current_latitude.getD 0, d.current_longitude.getD 0, d.id))) =
        (all_drivers.filter (isCandidateDriver vehicle_type)).map
          (fun d => (⟨d.id, driverDist route fallback_distance pickup_location d,
                      driverDur route fallback_distance pickup_location d⟩ :
            DriverDistanceQ)) := by
      unfold calculate_drivers_distancesQ
      rw [List.map_map]
      apply List.map_congr_left
      intro d _
      cases hroute : route pickup_location
          (d.current_latitude.getD 0, d.current_longitude.getD 0) with
      | none => simp [driverDist, driverDur, hroute]
      | some ri => simp [driverDist, driverDur, hroute]
    have hsuit : ((all_drivers.filter (isCandidateDriver vehicle_type)).map
          (fun d => (⟨d.id, driverDist route fallback_distance pickup_location d,
                      driverDur route fallback_distance pickup_location d⟩ :
            DriverDistanceQ))).filterMap (fun di =>
          if di.distance_km ≤ MAX_DISTANCE_KM then
            match (all_drivers.filter (isCandidateDriver vehicle_type)).find?
                (fun d => decide (d.id = di.driver_id)) with
            | some d => some (⟨d.id, di.distance_km, di.duration_minutes⟩ :
                SuitableDriver)
            | none => none
          else none) =
        (all_drivers.filter (isCandidateDriver vehicle_type)).filterMap (fun d =>
          if driverDist route fallback_distance pickup_location d ≤
              MAX_DISTANCE_KM then
            some (⟨d.id, driverDist route fallback_distance pickup_location d,
                   driverDur route fallback_distance pickup_location d⟩ :
              SuitableDriver)
          else none) := by
      rw [List.filterMap_map]
      apply List.filterMap_congr
      intro d hd
      simp only [Function.comp]
      by_cases hle : driverDist route fallback_distance pickup_location d ≤
          MAX_DISTANCE_KM
      · rw [if_pos hle, if_pos hle]
        have hfound : ∃ d', (all_drivers.filter
            (isCandidateDriver vehicle_type)).find?
              (fun x => decide (x.id = d.id)) = some d' ∧ d'.id = d.id := by
          have hissome : ((all_drivers.filter (isCandidateDriver vehicle_type)).find?
              (fun x => decide (x.id = d.id))).isSome := by
            rw [List.find?_isSome]
            exact ⟨d, hd, by simp⟩
          obtain ⟨d', hd'⟩ := Option.isSome_iff_exists.mp hissome
          refine ⟨d', hd', ?_⟩
          have := List.find?_some hd'
          simpa using this
        obtain ⟨d', hd', hid⟩ := hfound
        rw [hd']
        simp [hid]
      · rw [if_neg hle, if_neg hle]
    show (if (all_drivers.filter (isCandidateDriver vehicle_type)).isEmpty then _
      else _) = _
    rw [if_neg hemp]
    simp only [hlocs, hdists, hsuit]

/-- C5: the returned candidates are exactly the available, approved drivers of
the required vehicle class with a known position whose estimated distance is
within the 50 km radius — sorted ascending by distance and truncated to the 5
nearest (a qualifying driver is missing only when the list is full of closer
candidates) — and the persisted offer records are exactly one per returned
candidate, stamped with its computed distance and appended to the
notification table (so an empty candidate list creates zero records and is
not an error); order and driver tables are untouched. -/
theorem C5_candidate_selection (db : DB) (order : OrderRec)
    (route : ℚ × ℚ → ℚ × ℚ → Option RouteInfoQ)
    (fallback_distance : ℚ × ℚ → ℚ × ℚ → ℚ) :
    (∀ s ∈ (get_drivers_for_notification db order route fallback_distance).1,
      s.distance_km ≤ MAX_DISTANCE_KM ∧
      ∃ d ∈ db.drivers,
        isCandidateDriver
          (get_best_vehicle_type_for_order order.weight_kg order.value) d = true ∧
        s.driver_id = d.id ∧
        s.distance_km = driverDist route fallback_distance
          (order.pickup_latitude, order.pickup_longitude) d ∧
        s.duration_minutes = driverDur route fallback_distance
          (order.pickup_latitude, order.pickup_longitude) d) ∧
    (get_drivers_for_notification db order route fallback_distance).1.Pairwise
      (fun a b => a.distance_km ≤ b.distance_km) ∧
    (get_drivers_for_notification db order route fallback_distance).1.length ≤
      MAX_DRIVERS_TO_NOTIFY ∧
    (∀ d ∈ db.drivers,
      isCandidateDriver
        (get_best_vehicle_type_for_order order.weight_kg order.value) d = true →
      driverDist route fallback_distance
        (order.pickup_latitude, order.pickup_longitude) d ≤ MAX_DISTANCE_KM →
      ((∃ s ∈ (get_drivers_for_notification db order route fallback_distance).1,
          s.driver_id = d.id ∧
          s.distance_km = driverDist route fallback_distance
            (order.pickup_latitude, order.pickup_longitude) d) ∨
       ((get_drivers_for_notification db order route fallback_distance).1.length =
          MAX_DRIVERS_TO_NOTIFY ∧
        ∀ s ∈ (get_drivers_for_notification db order route fallback_distance).1,
          s.distance_km ≤ driverDist route fallback_distance
            (order.pickup_latitude, order.pickup_longitude) d))) ∧
    (get_drivers_for_notification db order route fallback_distance).2.notifications =
      db.notifications ++
        (get_drivers_for_notification db order route fallback_distance).1.map
          (fun s => { order_id := order.id, driver_id := s.driver_id,
                      response := none, response_at := none,
                      distance_km := s.distance_km }) ∧
    (get_drivers_for_notification db order route fallback_distance).2.orders =
      db.orders ∧
    (get_drivers_for_notification db order route fallback_distance).2.drivers =
      db.drivers := by
  have hfst : (get_drivers_for_notification db order route fallback_distance).1 =
      find_available_drivers db.drivers
        (get_best_vehicle_type_for_order order.weight_kg order.value) route
        fallback_distance (order.pickup_latitude, order.pickup_longitude) := by
    unfold get_drivers_for_notification
    by_cases h : (find_available_drivers db.drivers
        (get_best_vehicle_type_for_order order.weight_kg order.value) route
        fallback_distance (order.pickup_latitude, order.pickup_longitude)).isEmpty <;>
      simp [h]
  set vt := get_best_vehicle_type_for_order order.weight_kg order.value with hvt
  set pk := (order.pickup_latitude, order.pickup_longitude) with hpk
  set Q := (db.drivers.filter (isCandidateDriver vt)).filterMap (fun d =>
    if driverDist route fallback_distance pk d ≤ MAX_DISTANCE_KM then
      some (⟨d.id, driverDist route fallback_distance pk d,
             driverDur route fallback_distance pk d⟩ : SuitableDriver)
    else none) with hQ
  have hcands : (get_drivers_for_notification db order route fallback_distance).1 =
      (List.insertionSort (fun a b : SuitableDriver =>
        a.distance_km ≤ b.distance_km) Q).take MAX_DRIVERS_TO_NOTIFY := by
    rw [hfst, find_available_drivers_eq]
  have hsortedS : (List.insertionSort (fun a b : SuitableDriver =>
      a.distance_km ≤ b.distance_km) Q).Pairwise
      (fun a b : SuitableDriver => a.distance_km ≤ b.distance_km) :=
    @List.sorted_insertionSort SuitableDriver
      (fun a b : SuitableDriver => a.distance_km ≤ b.distance_km) _
      ⟨fun a b => le_total a.distance_km b.distance_km⟩
      ⟨fun _ _ _ hab hbc => le_trans hab hbc⟩ Q
  have hpermS : List.Perm (List.insertionSort (fun a b : SuitableDriver =>
      a.distance_km ≤ b.distance_km) Q) Q := List.perm_insertionSort _ Q
  have hQchar : ∀ s : SuitableDriver, s ∈ Q ↔ ∃ d ∈ db.drivers,
      isCandidateDriver vt d = true ∧
      driverDist route fallback_distance pk d ≤ MAX_DISTANCE_KM ∧
      s = ⟨d.id, driverDist route fallback_distance pk d,
           driverDur route fallback_distance pk d⟩ := by
    intro s
    rw [hQ, List.mem_filterMap]
    constructor
    · rintro ⟨d, hd, hfd⟩
      obtain ⟨hmem, helig⟩ := List.mem_filter.mp hd
      by_cases hdist : driverDist route fallback_distance pk d ≤ MAX_DISTANCE_KM
      · rw [if_pos hdist] at hfd
        injection hfd with hfd
        exact ⟨d, hmem, helig, hdist, hfd.symm⟩
      · rw [if_neg hdist] at hfd
        cases hfd
    · rintro ⟨d, hmem, helig, hdist, rfl⟩
      exact ⟨d, List.mem_filter.mpr ⟨hmem, helig⟩, if_pos hdist⟩
  refine ⟨?_, ?_, ?_, ?_, ?_, ?_, ?_⟩
  · intro s hs
    rw [hcands] at hs
    have hsQ : s ∈ Q :=
      hpermS.mem_iff.mp (List.take_subset MAX_DRIVERS_TO_NOTIFY _ hs)
    obtain ⟨d, hmem, helig, hdist, rfl⟩ := (hQchar s).mp hsQ
    exact ⟨hdist, d, hmem, helig, rfl, rfl, rfl⟩
  · rw [hcands]
    exact hsortedS.sublist (List.take_sublist _ _)
  · rw [hcands, List.length_take]
    exact Nat.min_le_left _ _
  · intro d hmem helig hdist
    have heQ : (⟨d.id, driverDist route fallback_distance pk d,
        driverDur route fallback_distance pk d⟩ : SuitableDriver) ∈ Q :=
      (hQchar _).mpr ⟨d, hmem, helig, hdist, rfl⟩
    have heS : (⟨d.id, driverDist route fallback_distance pk d,
        driverDur route fallback_distance pk d⟩ : SuitableDriver) ∈
        List.insertionSort (fun a b : SuitableDriver =>
        a.distance_km ≤ b.distance_km) Q := hpermS.mem_iff.mpr heQ
    rw [← List.take_append_drop MAX_DRIVERS_TO_NOTIFY (List.insertionSort (fun a b : SuitableDriver =>
        a.distance_km ≤ b.distance_km) Q)] at heS
    rcases List.mem_append.mp heS with hin | hdrop
    · left
      refine ⟨_, by rw [hcands]; exact hin, rfl, rfl⟩
    · right
      have hlong : MAX_DRIVERS_TO_NOTIFY < (List.insertionSort (fun a b : SuitableDriver =>
        a.distance_km ≤ b.distance_km) Q).length := by
        by_contra hcon
        push_neg at hcon
        rw [List.drop_eq_nil_of_le hcon] at hdrop
        simp at hdrop
      constructor
      · rw [hcands, List.length_take]
        omega
      · intro s hs
        rw [hcands] at hs
        have := hsortedS
        rw [← List.take_append_drop MAX_DRIVERS_TO_NOTIFY (List.insertionSort (fun a b : SuitableDriver =>
        a.distance_km ≤ b.distance_km) Q)] at this
        exact (List.pairwise_append.mp this).2.2 s hs _ hdrop
  · unfold get_drivers_for_notification
    by_cases h : (find_available_drivers db.drivers vt route fallback_distance
        pk).isEmpty
    · rw [List.isEmpty_iff] at h
      simp [h]
    · rw [Bool.not_eq_true] at h
      simp [h, create_order_notifications]
  · unfold get_drivers_for_notification
    by_cases h : (find_available_drivers db.drivers vt route fallback_distance
        pk).isEmpty
    · simp [h, create_order_notifications]
    · rw [Bool.not_eq_true] at h
      simp [h, create_order_notifications]
  · unfold get_drivers_for_notification
    by_cases h : (find_available_drivers db.drivers vt route fallback_distance
        pk).isEmpty
    · simp [h, create_order_notifications]
    · rw [Bool.not_eq_true] at h
      simp [h, create_order_notifications]

/-- Fleet for the C5 witness: two in-range available approved car drivers
(estimated 10 km and 20 km away), one out-of-range car driver (200 km) and
one truck driver. -/
def exampleFleetDB : DB :=
  { orders := [],
    drivers := [
      { id := 2, vehicle_type := VehicleType.car, current_latitude := some 10,
        current_longitude := some 0, status := DriverStatus.available,
        approval_status := ApprovalStatus.approved },
      { id := 3, vehicle_type := VehicleType.car, current_latitude := some 20,
        current_longitude := some 0, status := DriverStatus.available,
        approval_status := ApprovalStatus.approved },
      { id := 4, vehicle_type := VehicleType.car, current_latitude := some 200,
        current_longitude := some 0, status := DriverStatus.available,
        approval_status := ApprovalStatus.approved },
      { id := 5, vehicle_type := VehicleType.truck, current_latitude := some 1,
        current_longitude := some 0, status := DriverStatus.available,
        approval_status := ApprovalStatus.approved }],
    notifications := [] }

/-- A 10 kg order (car class) picked up at the origin. -/
def exampleOrder : OrderRec :=
  { id := 9, driver_id := none, pickup_latitude := 0, pickup_longitude := 0,
    weight_kg := some 10, value := none, status := OrderStatus.pending,
    assigned_at := none }

/-- Oracle reporting the destination latitude as both distance and
duration. -/
def exampleRoute : ℚ × ℚ → ℚ × ℚ → Option RouteInfoQ :=
  fun _ dest => some { distance_km := dest.1, duration_minutes := dest.1 }

/-- A trivial fallback estimator for the witness. -/
def exampleFallback : ℚ × ℚ → ℚ × ℚ → ℚ :=
  fun _ _ => 0

/-- The second in-range car driver of `exampleFleetDB`. -/
def exampleDriver3 : DriverRec :=
  { id := 3, vehicle_type := VehicleType.car, current_latitude := some 20,
    current_longitude := some 0, status := DriverStatus.available,
    approval_status := ApprovalStatus.approved }

/-- Witness for C5: on the concrete fleet, the returned candidate `(2, 10 km)`
is an in-range eligible driver with the estimator's metrics, and the
qualifying driver 3 either appears in the list or only closer candidates
fill it. -/
theorem C5_candidate_selection_witness :
    ((⟨2, 10, 10⟩ : SuitableDriver).distance_km ≤ MAX_DISTANCE_KM ∧
     ∃ d ∈ exampleFleetDB.drivers,
       isCandidateDriver (get_best_vehicle_type_for_order exampleOrder.weight_kg
         exampleOrder.value) d = true ∧
       (⟨2, 10, 10⟩ : SuitableDriver).driver_id = d.id ∧
       (⟨2, 10, 10⟩ : SuitableDriver).distance_km =
         driverDist exampleRoute exampleFallback
           (exampleOrder.pickup_latitude, exampleOrder.pickup_longitude) d ∧
       (⟨2, 10, 10⟩ : SuitableDriver).duration_minutes =
         driverDur exampleRoute exampleFallback
           (exampleOrder.pickup_latitude, exampleOrder.pickup_longitude) d) ∧
    ((∃ s ∈ (get_drivers_for_notification exampleFleetDB exampleOrder exampleRoute
          exampleFallback).1,
        s.driver_id = exampleDriver3.id ∧
        s.distance_km = driverDist exampleRoute exampleFallback
          (exampleOrder.pickup_latitude, exampleOrder.pickup_longitude)
          exampleDriver3) ∨
     ((get_drivers_for_notification exampleFleetDB exampleOrder exampleRoute
          exampleFallback).1.length = MAX_DRIVERS_TO_NOTIFY ∧
      ∀ s ∈ (get_drivers_for_notification exampleFleetDB exampleOrder exampleRoute
          exampleFallback).1,
        s.distance_km ≤ driverDist exampleRoute exampleFallback
          (exampleOrder.pickup_latitude, exampleOrder.pickup_longitude)
          exampleDriver3)) := by
  have h := C5_candidate_selection exampleFleetDB exampleOrder exampleRoute
    exampleFallback
  exact ⟨h.1 ⟨2, 10, 10⟩ (by decide),
    h.2.2.2.1 exampleDriver3 (by decide) (by decide) (by decide)⟩

end DriverLink
